import Mathlib

/-!
Shallow embedding of the connection and command runtime of the
kachaka-sdk-toolkit repository (src/kachaka_core), together with theorems
settling the frozen claims about its specification.

Conventions:
* Python dicts returned at public entry points become Lean structures or
  small inductives with optional fields.
* Wall-clock time is abstracted: each loop iteration consumes one element of
  an input trace; `perf_counter` readings in the retry layer are supplied as
  integer-valued clock functions indexed by the attempt number.
* Exceptions become explicit outcome constructors carrying the strings the
  code would extract from them.
-/

namespace KachakaCore

/-! ## Retry policy (src/kachaka_core/error_handling.py, `with_retry`) -/

/-- gRPC status codes relevant to the retry policy.  `other` covers the
remaining members of `grpc.StatusCode`. -/
inductive StatusCode where
  | unavailable
  | deadlineExceeded
  | resourceExhausted
  | invalidArgument
  | notFound
  | permissionDenied
  | other (name : String)
  deriving DecidableEq, Repr

/-- The `code.name` attribute of a `grpc.StatusCode` member. -/
def StatusCode.name : StatusCode → String
  | .unavailable => "UNAVAILABLE"
  | .deadlineExceeded => "DEADLINE_EXCEEDED"
  | .resourceExhausted => "RESOURCE_EXHAUSTED"
  | .invalidArgument => "INVALID_ARGUMENT"
  | .notFound => "NOT_FOUND"
  | .permissionDenied => "PERMISSION_DENIED"
  | .other n => n

/-- The set `RETRYABLE_CODES = \x7bUNAVAILABLE, DEADLINE_EXCEEDED, RESOURCE_EXHAUSTED\x7d`. -/
def RETRYABLE_CODES : StatusCode → Bool
  | .unavailable => true
  | .deadlineExceeded => true
  | .resourceExhausted => true
  | _ => false

/-- Outcome of one invocation of the wrapped callable.
`rpcError code details strRepr` models `grpc.RpcError` with
`exc.code() = code`, `exc.details() or "" = details` and `str(exc) = strRepr`;
`otherError strRepr` models any other exception with `str(exc) = strRepr`. -/
inductive Outcome where
  | success
  | rpcError (code : StatusCode) (details : String) (strRepr : String)
  | otherError (strRepr : String)
  deriving DecidableEq, Repr

/-- The value returned by the wrapper: either the wrapped callable's own
return value, or one of the structured error dicts built by `with_retry`
(`{"ok": False, "error": err, "retryable": retryable}`, with the
`"attempts"` key present exactly on the exhaustion path). -/
inductive RetryResult where
  | funcReturn
  | errDict (error : String) (retryable : Bool) (attempts : Option Nat)
  deriving DecidableEq, Repr

/-- Python `str(last_error)` where `last_error : Exception | None`. -/
def strOfLast : Option String → String
  | none => "None"
  | some s => s

/-- Count mode of `with_retry` (no deadline).  `attempt` counts invocations
made so far (the Python variable at the loop head); `remaining` is
`max_attempts - attempt`, so the loop-head break `attempt >= max_attempts`
is the `0` case.  `outcomes i` is what the `i`-th invocation (0-based) does.
Returns the wrapper's result together with the total number of invocations. -/
def countLoop (outcomes : Nat → Outcome) (attempt : Nat) (lastError : Option String) :
    Nat → RetryResult × Nat
  | 0 => (.errDict (strOfLast lastError) true (some attempt), attempt)
  | remaining + 1 =>
    match outcomes attempt with
    | .success => (.funcReturn, attempt + 1)
    | .rpcError code details strRepr =>
      if RETRYABLE_CODES code then
        -- backoff delay computed and slept here; irrelevant to the result
        countLoop outcomes (attempt + 1) (some strRepr) remaining
      else
        (.errDict (code.name ++ ": " ++ details) false none, attempt + 1)
    | .otherError strRepr => (.errDict strRepr false none, attempt + 1)

/-- The decorator `with_retry(max_attempts=maxAttempts)` applied to a callable whose
invocations behave as `outcomes`. -/
def withRetryCount (maxAttempts : Nat) (outcomes : Nat → Outcome) : RetryResult × Nat :=
  countLoop outcomes 0 none maxAttempts

/-- Deadline mode of `with_retry` (`deadline` set, `max_attempts` ignored).
`absDeadline` is `time.perf_counter() + deadline` taken at entry;
`checkTime i` is the `perf_counter` reading at the loop-head check of the
iteration whose head value of `attempt` is `i`; `sleepTime i` is the reading
taken when clamping the backoff sleep after invocation `i` (0-based) raised a
retryable error.  `fuel` bounds the number of iterations we unfold; `none`
means the loop was still running when the fuel ran out. -/
def deadlineLoop (absDeadline : Int) (checkTime sleepTime : Nat → Int)
    (outcomes : Nat → Outcome) (attempt : Nat) (lastError : Option String) :
    Nat → Option (RetryResult × Nat)
  | 0 => none
  | fuel + 1 =>
    if attempt > 0 ∧ checkTime attempt ≥ absDeadline then
      some (.errDict (strOfLast lastError) true (some attempt), attempt)
    else
      match outcomes attempt with
      | .success => some (.funcReturn, attempt + 1)
      | .rpcError code details strRepr =>
        if RETRYABLE_CODES code then
          if absDeadline - sleepTime attempt ≤ 0 then
            some (.errDict (strOfLast (some strRepr)) true (some (attempt + 1)), attempt + 1)
          else
            deadlineLoop absDeadline checkTime sleepTime outcomes (attempt + 1)
              (some strRepr) fuel
        else
          some (.errDict (code.name ++ ": " ++ details) false none, attempt + 1)
      | .otherError strRepr => some (.errDict strRepr false none, attempt + 1)

/-- The decorator `with_retry(deadline=...)` applied to a callable behaving as `outcomes`. -/
def withRetryDeadline (absDeadline : Int) (checkTime sleepTime : Nat → Int)
    (outcomes : Nat → Outcome) (fuel : Nat) : Option (RetryResult × Nat) :=
  deadlineLoop absDeadline checkTime sleepTime outcomes 0 none fuel

/-! ## Timeout interceptor (src/kachaka_core/interceptors.py) -/

/-- The `grpc.ClientCallDetails` record as the interceptor sees it.  The timeout is a
float-or-None; metadata, credentials, wait-for-ready and compression are
opaque payloads, so the structure is polymorphic in them. -/
structure ClientCallDetails (α β γ δ : Type) where
  method : String
  timeout : Option ℚ
  metadata : α
  credentials : β
  waitForReady : γ
  compression : δ
  deriving Repr

/-- Embedding of `TimeoutInterceptor.intercept_unary_unary`: when the caller supplied no
timeout, rebuild the call details with the default timeout given at
construction; otherwise forward the details unchanged.  Only the call
details are modelled: `continuation(details, request)` is applied by the
channel to whatever this function returns. -/
def interceptUnaryUnary {α β γ δ : Type} (defaultTimeout : ℚ)
    (d : ClientCallDetails α β γ δ) : ClientCallDetails α β γ δ :=
  match d.timeout with
  | none =>
    { method := d.method
      timeout := some defaultTimeout
      metadata := d.metadata
      credentials := d.credentials
      waitForReady := d.waitForReady
      compression := d.compression }
  | some _ => d

/-! ## Connection: target canonicalization, pool, resolver
(src/kachaka_core/connection.py) -/

/-- Embedding of `KachakaConnection._normalise_target`: append the default gRPC port
26400 when the target names no port. -/
def normaliseTarget (target : String) : String :=
  if target.toList.contains ':' then target else target ++ ":26400"

/-- A pooled connection handle: the `target` attribute set by `__init__`
(already canonical) plus an identity distinguishing distinct handles. -/
structure ConnHandle where
  target : String
  hid : Nat
  deriving DecidableEq, Repr

/-- The pool `KachakaConnection._pool`, keyed by canonical target, plus a supply of
fresh handle identities. -/
structure Pool where
  entries : List (String × ConnHandle)
  nextId : Nat
  deriving DecidableEq, Repr

/-- Embedding of `KachakaConnection.get`: canonicalize the target, reuse the pooled
handle when one exists, otherwise construct one (whose `target` attribute is
the canonical key, itself normalised again by `__init__`) and pool it.
Returns the handle and the updated pool. -/
def poolGet (p : Pool) (target : String) : ConnHandle × Pool :=
  let key := normaliseTarget target
  match p.entries.lookup key with
  | some h => (h, p)
  | none =>
    let h : ConnHandle := { target := normaliseTarget key, hid := p.nextId }
    (h, { entries := (key, h) :: p.entries, nextId := p.nextId + 1 })

/-- Resolver state built by `KachakaConnection.ensure_resolver`:
name→id maps (as association lists) and the sets of known ids. -/
structure ResolverState where
  shelves : List (String × String)
  shelfIds : List String
  locations : List (String × String)
  locationIds : List String
  deriving DecidableEq, Repr

/-- Embedding of `KachakaConnection.resolve_shelf`.  Note the Python truthiness test
`if shelf_id:` — a name mapped to the empty string falls through to the
final `return name_or_id`. -/
def resolveShelf (rs : ResolverState) (nameOrId : String) : String :=
  if rs.shelfIds.contains nameOrId then nameOrId
  else
    match rs.shelves.lookup nameOrId with
    | some shelfId => if shelfId ≠ "" then shelfId else nameOrId
    | none => nameOrId

/-- Embedding of `KachakaConnection.resolve_location`, same shape as `resolve_shelf`. -/
def resolveLocation (rs : ResolverState) (nameOrId : String) : String :=
  if rs.locationIds.contains nameOrId then nameOrId
  else
    match rs.locations.lookup nameOrId with
    | some locId => if locId ≠ "" then locId else nameOrId
    | none => nameOrId

/-- The two-state health machine `ConnectionState`. -/
inductive ConnectionState where
  | connected
  | disconnected
  deriving DecidableEq, Repr

/-! ## Controller command executor (src/kachaka_core/controller.py,
`RobotController._execute_command` and the movement wrappers) -/

/-- Constant `kachaka_api_pb2.COMMAND_STATE_PENDING`. -/
def COMMAND_STATE_PENDING : Nat := 1

/-- Constant `kachaka_api_pb2.COMMAND_STATE_RUNNING`. -/
def COMMAND_STATE_RUNNING : Nat := 2

/-- The standardised result dict of `_execute_command`.  Optional fields are
the keys that are present only on some paths; `elapsed` and `timeout` are in
abstract ticks (one tick per consumed trace element). -/
structure CmdResult where
  ok : Bool
  action : String
  target : String
  error : Option String := none
  errorCode : Option Int := none
  elapsed : Option Nat := none
  timeout : Option Nat := none
  deriving DecidableEq, Repr

/-- Embedding of `ControllerMetrics` as mutated by the main polling loop (the rtt list
holds abstract tick values supplied by the trace). -/
structure Metrics where
  pollRttList : List Nat := []
  pollCount : Nat := 0
  pollSuccessCount : Nat := 0
  pollFailureCount : Nat := 0
  deriving DecidableEq, Repr

/-- The slice of controller state touched by shelf monitoring:
`_monitoring_shelf`, `_state.moving_shelf_id`, `_state.shelf_dropped`, and
the accumulated arguments of `_on_shelf_dropped` invocations. -/
structure ShelfMonitor where
  monitoringShelf : Bool := false
  movingShelfId : Option String := none
  shelfDropped : Bool := false
  droppedEvents : List String := []
  deriving DecidableEq, Repr

/-- One shelf-monitor pass inside the polling loop (controller.py lines
341-354): read `get_moving_shelf_id() or ""` (`none` models the read
raising, which is caught and logged); store `mid or None`; if the previous
value was truthy and the new value empty, set `shelf_dropped`, fire the
listener with the previous id and disarm monitoring. -/
def shelfMonitorStep (sm : ShelfMonitor) (read : Option String) : ShelfMonitor :=
  if sm.monitoringShelf then
    match read with
    | none => sm
    | some mid =>
      match sm.movingShelfId with
      | some prev =>
        if prev ≠ "" ∧ mid = "" then
          { sm with
            movingShelfId := none
            shelfDropped := true
            droppedEvents := sm.droppedEvents ++ [prev]
            monitoringShelf := false }
        else { sm with movingShelfId := if mid = "" then none else some mid }
      | none => { sm with movingShelfId := if mid = "" then none else some mid }
  else sm

/-- What `_call_with_retry(stub.GetLastCommandResult, ...)` yields when the
executor decides to fetch the last command result: either the retries were
exhausted and the last exception propagates, or a response carrying
`command_id` and `result.{success, error_code}`. -/
inductive FetchOutcome where
  | raiseErr (msg : String)
  | resp (commandId : String) (success : Bool) (errorCode : Int)
  deriving DecidableEq, Repr

/-- One iteration of the main polling loop as seen from outside:
`pollFail` models `GetCommandState` raising; `poll st cid read fetch rtt`
models a successful poll returning state `st` and command id `cid`, with the
shelf-monitor read yielding `read` and — consulted only when the completion
condition holds — the last-result fetch behaving as `fetch`.  `rtt` is the
recorded round-trip. -/
inductive PollStep where
  | pollFail
  | poll (state : Nat) (commandId : String) (read : Option String)
      (fetch : FetchOutcome) (rtt : Nat)
  deriving DecidableEq, Repr

/-- Metrics update of a successful poll. -/
def Metrics.onPollOk (m : Metrics) (rtt : Nat) : Metrics :=
  { m with
    pollCount := m.pollCount + 1
    pollSuccessCount := m.pollSuccessCount + 1
    pollRttList := m.pollRttList ++ [rtt] }

/-- Metrics update of a failed poll. -/
def Metrics.onPollFail (m : Metrics) : Metrics :=
  { m with pollCount := m.pollCount + 1, pollFailureCount := m.pollFailureCount + 1 }

/-- The string `error_code=<ec>`, extended with `: <desc>` when the description is non-empty. -/
def errorString (ec : Int) (desc : String) : String :=
  "error_code=" ++ toString ec ++ (if desc = "" then "" else ": " ++ desc)

/-- The main polling loop of `_execute_command` (controller.py lines
326-417).  `descOf` is `_resolve_error_description`; `timeoutVal` is the
nominal timeout reported in the TIMEOUT dict; the steps list plays the
deadline (the loop exits to the TIMEOUT result when it is exhausted);
`tick` counts consumed iterations and feeds the `elapsed` field. -/
def pollLoop (cmdId action target : String) (descOf : Int → String) (timeoutVal : Nat) :
    List PollStep → Nat → ShelfMonitor → Metrics → CmdResult × ShelfMonitor × Metrics
  | [], _, sm, m =>
    ({ ok := false, action, target, error := some "TIMEOUT", timeout := some timeoutVal },
      sm, m)
  | .pollFail :: rest, tick, sm, m =>
    pollLoop cmdId action target descOf timeoutVal rest (tick + 1) sm m.onPollFail
  | .poll st cid read fetch rtt :: rest, tick, sm, m =>
    let m' := m.onPollOk rtt
    let sm' := shelfMonitorStep sm read
    if (st ≠ COMMAND_STATE_RUNNING ∧ st ≠ COMMAND_STATE_PENDING) ∨ cid ≠ cmdId then
      match fetch with
      | .raiseErr msg =>
        ({ ok := false, action, target, error := some msg, elapsed := some (tick + 1) },
          sm', m')
      | .resp rcid success ec =>
        if rcid = cmdId then
          if success then
            ({ ok := true, action, target, elapsed := some (tick + 1) }, sm', m')
          else
            ({ ok := false, action, target, errorCode := some ec,
               error := some (errorString ec (descOf ec)), elapsed := some (tick + 1) },
              sm', m')
        else
          -- command_id mismatch: the result is stale, log and continue polling
          pollLoop cmdId action target descOf timeoutVal rest (tick + 1) sm' m'
    else
      pollLoop cmdId action target descOf timeoutVal rest (tick + 1) sm' m'

/-- What `_call_with_retry(stub.StartCommand, ...)` yields: either the
retries were exhausted and the last exception propagates, or a
`StartCommandResponse` carrying `result.{success, error_code}` and
`command_id`. -/
inductive StartOutcome where
  | raiseErr (msg : String)
  | resp (success : Bool) (errorCode : Int) (commandId : String)
  deriving DecidableEq, Repr

/-- The registration wait (controller.py lines 305-323): poll
`GetCommandState` (an element `none` models the call raising) until the
current id equals ours and the state is RUNNING or PENDING; the outcome is
only logged, never acted on. -/
def registrationWait (cmdId : String) : List (Option (Nat × String)) → Bool
  | [] => false
  | none :: rest => registrationWait cmdId rest
  | some (st, cid) :: rest =>
    if cid = cmdId ∧ (st = COMMAND_STATE_RUNNING ∨ st = COMMAND_STATE_PENDING) then true
    else registrationWait cmdId rest

/-- Embedding of `RobotController._execute_command` as shipped in
src/kachaka_core/controller.py: start the command under retry, return an
error dict if the start raised or the robot rejected it, run the
registration wait, then the main polling loop. -/
def executeCommand (action target : String) (descOf : Int → String) (timeoutVal : Nat)
    (start : StartOutcome) (regSteps : List (Option (Nat × String)))
    (steps : List PollStep) (sm : ShelfMonitor) (m : Metrics) :
    CmdResult × ShelfMonitor × Metrics :=
  match start with
  | .raiseErr msg =>
    ({ ok := false, action, target, error := some msg, elapsed := some 0 }, sm, m)
  | .resp success ec cmdId =>
    if success then
      let _registered := registrationWait cmdId regSteps
      pollLoop cmdId action target descOf timeoutVal steps 0 sm m
    else
      ({ ok := false, action, target, errorCode := some ec,
         error := some (errorString ec (descOf ec)), elapsed := some 0 }, sm, m)

/-- Embedding of `RobotController.move_shelf`, the part preceding the executor call:
resolve the shelf name, clear `shelf_dropped`, seed `moving_shelf_id` with
the resolved id and arm the monitor. -/
def moveShelfPrep (rs : ResolverState) (shelfName : String) (sm : ShelfMonitor) :
    String × ShelfMonitor :=
  let shelfId := resolveShelf rs shelfName
  (shelfId,
    { sm with shelfDropped := false, movingShelfId := some shelfId, monitoringShelf := true })

/-- Embedding of `RobotController.move_shelf`: arm the monitor, then run the executor
with action `"move_shelf"` and target `"<shelf> -> <location>"`. -/
def moveShelf (rs : ResolverState) (shelfName locationName : String)
    (descOf : Int → String) (timeoutVal : Nat) (start : StartOutcome)
    (regSteps : List (Option (Nat × String))) (steps : List PollStep)
    (sm : ShelfMonitor) (m : Metrics) : CmdResult × ShelfMonitor × Metrics :=
  let prep := moveShelfPrep rs shelfName sm
  executeCommand "move_shelf" (shelfName ++ " -> " ++ locationName) descOf timeoutVal
    start regSteps steps prep.2 m

/-! ## Later controller revision: disconnect gate and connection-state
integration.  These features are exercised by src/tests/test_controller.py
but the revision of controller.py implementing them is not under src/, so
they are modelled from the spec. -/

/-- Modelled from the spec: the disconnect gate at the head of
`RobotController._execute_command` (missing from the src revision of
controller.py; exercised by its tests).  "If the Connection's current state
is DISCONNECTED, wait for CONNECTED up to the remaining timeout.  On
timeout, return {ok: false, action, error: \"DISCONNECTED\", elapsed}."
`waitReached` is the Boolean `wait_for_state(CONNECTED, remaining)` returns;
when the gate passes, execution proceeds with the ungated executor, whose
first step issues the start-command RPC. -/
def executeCommandGated (connState : ConnectionState) (waitReached : Bool)
    (action target : String) (descOf : Int → String) (timeoutVal : Nat)
    (start : StartOutcome) (regSteps : List (Option (Nat × String)))
    (steps : List PollStep) (sm : ShelfMonitor) (m : Metrics) :
    CmdResult × ShelfMonitor × Metrics :=
  if connState = ConnectionState.disconnected ∧ waitReached = false then
    ({ ok := false, action, target, error := some "DISCONNECTED", elapsed := some 0 },
      sm, m)
  else
    executeCommand action target descOf timeoutVal start regSteps steps sm m

/-- Modelled from the spec: the connection-state slice of the later
revision's `RobotState` — connection_state, disconnected_at,
last_reconnect_at (missing from the src revision of controller.py;
exercised by its tests). -/
structure ConnInfo where
  connectionState : ConnectionState := .connected
  disconnectedAt : Option Nat := none
  lastReconnectAt : Option Nat := none
  deriving DecidableEq, Repr

/-- Modelled from the spec: `RobotController._on_conn_state_change`
(missing from the src revision of controller.py; exercised by its tests).
"On CONNECTED transition (when previously DISCONNECTED): ... record
last_reconnect_at.  On DISCONNECTED: record disconnected_at."  `now` is the
monotonic timestamp of the transition. -/
def onConnStateChange (info : ConnInfo) (newState : ConnectionState) (now : Nat) :
    ConnInfo :=
  match newState with
  | .disconnected =>
    { info with connectionState := .disconnected, disconnectedAt := some now }
  | .connected =>
    if info.connectionState = ConnectionState.disconnected then
      { info with connectionState := .connected, lastReconnectAt := some now }
    else
      { info with connectionState := .connected }

/-- The Connection's listener registration slot
(`start_monitoring(..., on_state_change=...)`). -/
structure MonitoringSub where
  onStateChange : Option (ConnInfo → ConnectionState → Nat → ConnInfo) := none

/-- Modelled from the spec: "On `start`, the Controller subscribes to the
Connection's health machine" — `start` registers `_on_conn_state_change`
with the Connection's monitoring (missing from the src revision of
controller.py; exercised by its tests). -/
def controllerStart (_sub : MonitoringSub) : MonitoringSub :=
  { onStateChange := some onConnStateChange }

/-- Modelled from the spec: "The state snapshot surfaces connection_state,
disconnected_at, last_reconnect_at." -/
def stateSnapshot (info : ConnInfo) : ConnectionState × Option Nat × Option Nat :=
  (info.connectionState, info.disconnectedAt, info.lastReconnectAt)

/-! ## Theorems settling the claims -/

/-- C6: for every unary call passing through the timeout interceptor, if the
caller-supplied deadline is unset the call proceeds with the default timeout
given at construction, otherwise the call details pass through unmodified;
in the injected case every field other than the timeout (method, metadata,
credentials, wait_for_ready, compression) is unchanged. -/
theorem timeout_interceptor_injects_default_only {α β γ δ : Type} (dt : ℚ)
    (d : ClientCallDetails α β γ δ) :
    (interceptUnaryUnary dt d).method = d.method ∧
    (interceptUnaryUnary dt d).metadata = d.metadata ∧
    (interceptUnaryUnary dt d).credentials = d.credentials ∧
    (interceptUnaryUnary dt d).waitForReady = d.waitForReady ∧
    (interceptUnaryUnary dt d).compression = d.compression ∧
    (d.timeout = none → (interceptUnaryUnary dt d).timeout = some dt) ∧
    (∀ t, d.timeout = some t → interceptUnaryUnary dt d = d) := by
  cases h : d.timeout <;> simp [interceptUnaryUnary, h]

/-- Witness for C6 at concrete call details, covering both the injected
case (no caller deadline) and the pass-through case. -/
theorem timeout_interceptor_witness :
    (interceptUnaryUnary 10
      ({ method := "m", timeout := none, metadata := 1, credentials := 2,
         waitForReady := 3, compression := 4 } : ClientCallDetails ℕ ℕ ℕ ℕ)).timeout
        = some 10 ∧
    interceptUnaryUnary 10
      ({ method := "m", timeout := some 7, metadata := 1, credentials := 2,
         waitForReady := 3, compression := 4 } : ClientCallDetails ℕ ℕ ℕ ℕ)
        = { method := "m", timeout := some 7, metadata := 1, credentials := 2,
            waitForReady := 3, compression := 4 } := by
  constructor
  · exact (timeout_interceptor_injects_default_only 10 _).2.2.2.2.2.1 rfl
  · exact (timeout_interceptor_injects_default_only 10 _).2.2.2.2.2.2 7 rfl

/-- C1: if the Connection is DISCONNECTED when execution begins, the gated
executor waits for CONNECTED up to the remaining timeout before the
start-command RPC; if that wait times out it returns
{ok: false, action, error: "DISCONNECTED", elapsed} — independently of the
start/poll behaviour, which is never consulted — and when the gate passes
(connected, or the wait succeeded) execution proceeds with the ungated
executor, whose first step is the start-command RPC. -/
theorem disconnect_gate_blocks_start (action target : String) (descOf : Int → String)
    (timeoutVal : Nat) (start : StartOutcome) (regSteps : List (Option (Nat × String)))
    (steps : List PollStep) (sm : ShelfMonitor) (m : Metrics) :
    (executeCommandGated .disconnected false action target descOf timeoutVal start
        regSteps steps sm m
      = ({ ok := false, action, target, error := some "DISCONNECTED",
           elapsed := some 0 }, sm, m)) ∧
    (∀ connState waitReached, (connState = ConnectionState.connected ∨ waitReached = true) →
      executeCommandGated connState waitReached action target descOf timeoutVal start
          regSteps steps sm m
        = executeCommand action target descOf timeoutVal start regSteps steps sm m) := by
  constructor
  · simp [executeCommandGated]
  · intro connState waitReached h
    rcases h with h | h <;> simp [executeCommandGated, h]

/-- Witness for C1: a DISCONNECTED gate timeout on a `return_home` command
yields the DISCONNECTED error dict, and a CONNECTED state proceeds to the
executor. -/
theorem disconnect_gate_blocks_start_witness :
    (executeCommandGated .disconnected false "return_home" "" (fun _ => "") 5
        (.resp true 0 "cmd-A") [] [] {} {}
      = ({ ok := false, action := "return_home", target := "",
           error := some "DISCONNECTED", elapsed := some 0 }, {}, {})) ∧
    (executeCommandGated .connected true "return_home" "" (fun _ => "") 5
        (.resp true 0 "cmd-A") [] [] {} {}
      = executeCommand "return_home" "" (fun _ => "") 5 (.resp true 0 "cmd-A") [] [] {} {}) := by
  refine ⟨(disconnect_gate_blocks_start "return_home" "" (fun _ => "") 5
      (.resp true 0 "cmd-A") [] [] {} {}).1, ?_⟩
  exact (disconnect_gate_blocks_start "return_home" "" (fun _ => "") 5
      (.resp true 0 "cmd-A") [] [] {} {}).2 .connected true (Or.inl rfl)

/-- C3: `start` subscribes the controller's transition handler to the
Connection's health machine; a transition to DISCONNECTED records
disconnected_at, a transition to CONNECTED when previously DISCONNECTED
records last_reconnect_at, and the state snapshot surfaces
connection_state, disconnected_at and last_reconnect_at. -/
theorem controller_connection_state_integration :
    (∀ s, (controllerStart s).onStateChange = some onConnStateChange) ∧
    (∀ info t, onConnStateChange info .disconnected t
      = { info with connectionState := .disconnected, disconnectedAt := some t }) ∧
    (∀ info t, info.connectionState = ConnectionState.disconnected →
      (onConnStateChange info .connected t).lastReconnectAt = some t ∧
      (onConnStateChange info .connected t).connectionState = .connected) ∧
    (∀ info, stateSnapshot info
      = (info.connectionState, info.disconnectedAt, info.lastReconnectAt)) := by
  refine ⟨fun s => rfl, fun info t => rfl, ?_, fun info => rfl⟩
  intro info t h
  simp [onConnStateChange, h]

/-- Witness for C3: a DISCONNECTED transition at time 3 followed by a
CONNECTED transition at time 5 records both timestamps. -/
theorem controller_connection_state_integration_witness :
    (onConnStateChange {} .disconnected 3).disconnectedAt = some 3 ∧
    (onConnStateChange (onConnStateChange {} .disconnected 3) .connected 5).lastReconnectAt
      = some 5 := by
  constructor
  · rw [controller_connection_state_integration.2.1 {} 3]
  · exact (controller_connection_state_integration.2.2.1
      (onConnStateChange {} .disconnected 3) 5 (by decide)).1

/-- Helper: an association-list lookup that misses means no pair with that
key is in the list. -/
theorem lookup_none_not_mem_keys (k : String) :
    ∀ l : List (String × ConnHandle), l.lookup k = none → ∀ v, (k, v) ∉ l := by
  intro l
  induction l with
  | nil => simp
  | cons hd tl ih =>
    intro hl v
    rcases hd with ⟨k', h'⟩
    by_cases hk : k = k'
    · subst hk
      simp [List.lookup] at hl
    · have htl : tl.lookup k = none := by
        simpa [List.lookup, beq_false_of_ne hk] using hl
      simp only [List.mem_cons]
      rintro (h | h)
      · exact hk (congrArg Prod.fst h)
      · exact ih htl v h

/-- C9: targets are canonicalized by appending the default port 26400 when
no port is present; the pool holds at most one Connection per canonical
target (the key list stays duplicate-free across `get`); acquiring two
targets that canonicalize equally returns the identical handle; and in
particular acquiring "1.2.3.4" twice returns the same handle, whose
canonical target is "1.2.3.4:26400". -/
theorem pool_one_connection_per_canonical_target :
    (∀ p t₁ t₂, normaliseTarget t₁ = normaliseTarget t₂ →
      (poolGet (poolGet p t₁).2 t₂).1 = (poolGet p t₁).1) ∧
    (∀ p t, (p.entries.map Prod.fst).Nodup →
      ((poolGet p t).2.entries.map Prod.fst).Nodup) ∧
    ((poolGet (poolGet { entries := [], nextId := 0 } "1.2.3.4").2 "1.2.3.4").1
      = (poolGet { entries := [], nextId := 0 } "1.2.3.4").1 ∧
     (poolGet { entries := [], nextId := 0 } "1.2.3.4").1.target = "1.2.3.4:26400") := by
  refine ⟨?_, ?_, by decide⟩
  · intro p t₁ t₂ heq
    unfold poolGet
    rw [← heq]
    cases hl : p.entries.lookup (normaliseTarget t₁) with
    | some h => simp [hl]
    | none => simp [hl, List.lookup]
  · intro p t hnd
    unfold poolGet
    cases hl : p.entries.lookup (normaliseTarget t) with
    | some h => simpa [hl] using hnd
    | none =>
      simp [hl]
      exact ⟨lookup_none_not_mem_keys (normaliseTarget t) p.entries hl, hnd⟩

/-- Witness for C9: the double-acquire identity applied to the empty pool
with the two spellings "1.2.3.4" and "1.2.3.4:26400". -/
theorem pool_one_connection_per_canonical_target_witness :
    (poolGet (poolGet { entries := [], nextId := 0 } "1.2.3.4").2 "1.2.3.4:26400").1
      = (poolGet { entries := [], nextId := 0 } "1.2.3.4").1 ∧
    (([] : List (String × ConnHandle)).map Prod.fst).Nodup ∧
    (((poolGet { entries := [], nextId := 0 } "1.2.3.4").2.entries.map Prod.fst)).Nodup := by
  refine ⟨pool_one_connection_per_canonical_target.1
      { entries := [], nextId := 0 } "1.2.3.4" "1.2.3.4:26400" (by decide),
    by decide,
    pool_one_connection_per_canonical_target.2.1
      { entries := [], nextId := 0 } "1.2.3.4" (by decide)⟩

/-- Counterexample for C7 as stated: in the resolver state built from a
server shelf list containing one shelf named "n" with the empty id (so the
name→id map is {"n" ↦ ""} and the id set is {""}), the pair ("n", "") is a
known name→id pair, yet `resolve_shelf "n"` returns "n", not the mapped id
"": the Python truthiness test `if shelf_id:` lets an empty mapped id fall
through to `return name_or_id`. -/
theorem resolve_shelf_claim_counterexample :
    ({ shelves := [("n", "")], shelfIds := [""], locations := [],
       locationIds := [] } : ResolverState).shelves.lookup "n" = some "" ∧
    resolveShelf
      { shelves := [("n", "")], shelfIds := [""], locations := [], locationIds := [] }
      "n" = "n" ∧
    ¬ resolveShelf
      { shelves := [("n", "")], shelfIds := [""], locations := [], locationIds := [] }
      "n" = "" := by
  decide

/-- C7 (amended): `resolve_shelf` returns its input when it is a known id;
when the input is not a known id but is a known name mapped to a NON-EMPTY
id, it returns the mapped id; otherwise (unknown input, or a name mapped to
the empty id) it returns the input unchanged.  Consequently resolve_shelf
is idempotent on resolver states whose id set contains the map's values, as
`ensure_resolver` builds them.  `resolve_location` behaves analogously. -/
theorem resolve_shelf_amended :
    (∀ rs : ResolverState, ∀ s, rs.shelfIds.contains s = true → resolveShelf rs s = s) ∧
    (∀ rs : ResolverState, ∀ n s, rs.shelfIds.contains n = false →
      rs.shelves.lookup n = some s → s ≠ "" → resolveShelf rs n = s) ∧
    (∀ rs : ResolverState, ∀ n, rs.shelfIds.contains n = false →
      rs.shelves.lookup n = none → resolveShelf rs n = n) ∧
    (∀ rs : ResolverState, ∀ n, rs.shelfIds.contains n = false →
      rs.shelves.lookup n = some "" → resolveShelf rs n = n) ∧
    (∀ rs : ResolverState, ∀ x,
      (∀ n s, rs.shelves.lookup n = some s → rs.shelfIds.contains s = true) →
      resolveShelf rs (resolveShelf rs x) = resolveShelf rs x) ∧
    (∀ rs : ResolverState, ∀ s, rs.locationIds.contains s = true →
      resolveLocation rs s = s) ∧
    (∀ rs : ResolverState, ∀ n s, rs.locationIds.contains n = false →
      rs.locations.lookup n = some s → s ≠ "" → resolveLocation rs n = s) ∧
    (∀ rs : ResolverState, ∀ n, rs.locationIds.contains n = false →
      rs.locations.lookup n = none → resolveLocation rs n = n) := by
  refine ⟨fun rs s h => by
      have hm : s ∈ rs.shelfIds := by simpa using h
      simp [resolveShelf, hm],
    fun rs n s hc hl hs => by
      have hm : n ∉ rs.shelfIds := by simpa using hc
      simp [resolveShelf, hm, hl, hs],
    fun rs n hc hl => by
      have hm : n ∉ rs.shelfIds := by simpa using hc
      simp [resolveShelf, hm, hl],
    fun rs n hc hl => by
      have hm : n ∉ rs.shelfIds := by simpa using hc
      simp [resolveShelf, hm, hl],
    ?_,
    fun rs s h => by
      have hm : s ∈ rs.locationIds := by simpa using h
      simp [resolveLocation, hm],
    fun rs n s hc hl hs => by
      have hm : n ∉ rs.locationIds := by simpa using hc
      simp [resolveLocation, hm, hl, hs],
    fun rs n hc hl => by
      have hm : n ∉ rs.locationIds := by simpa using hc
      simp [resolveLocation, hm, hl]⟩
  intro rs x hvals
  by_cases hc : x ∈ rs.shelfIds
  · have h1 : resolveShelf rs x = x := by simp [resolveShelf, hc]
    simp [h1]
  · cases hl : rs.shelves.lookup x with
    | none =>
      have h1 : resolveShelf rs x = x := by simp [resolveShelf, hc, hl]
      simp [h1]
    | some s =>
      by_cases hs : s = ""
      · subst hs
        have h1 : resolveShelf rs x = x := by simp [resolveShelf, hc, hl]
        simp [h1]
      · have h1 : resolveShelf rs x = s := by simp [resolveShelf, hc, hl, hs]
        have h2 : s ∈ rs.shelfIds := by simpa using hvals x s hl
        rw [h1]
        simp [resolveShelf, h2]

/-- Witness for C7 (amended) on a concrete two-shelf resolver state:
id pass-through, name resolution, unknown fall-through and idempotence. -/
theorem resolve_shelf_amended_witness :
    resolveShelf
      { shelves := [("pantry", "S01")], shelfIds := ["S01"], locations := [],
        locationIds := [] } "S01" = "S01" ∧
    resolveShelf
      { shelves := [("pantry", "S01")], shelfIds := ["S01"], locations := [],
        locationIds := [] } "pantry" = "S01" ∧
    resolveShelf
      { shelves := [("pantry", "S01")], shelfIds := ["S01"], locations := [],
        locationIds := [] } "ghost" = "ghost" ∧
    resolveShelf
      { shelves := [("pantry", "S01")], shelfIds := ["S01"], locations := [],
        locationIds := [] }
      (resolveShelf
        { shelves := [("pantry", "S01")], shelfIds := ["S01"], locations := [],
          locationIds := [] } "pantry")
      = resolveShelf
        { shelves := [("pantry", "S01")], shelfIds := ["S01"], locations := [],
          locationIds := [] } "pantry" := by
  refine ⟨resolve_shelf_amended.1 _ "S01" (by decide),
    resolve_shelf_amended.2.1 _ "pantry" "S01" (by decide) (by decide) (by decide),
    resolve_shelf_amended.2.2.1 _ "ghost" (by decide) (by decide),
    resolve_shelf_amended.2.2.2.2.1 _ "pantry" ?_⟩
  intro n s hl
  have : n = "pantry" ∧ s = "S01" := by
    cases hn : String.decEq n "pantry" with
    | isTrue h => subst h; simp [List.lookup] at hl; simp [hl]
    | isFalse h => simp [List.lookup, beq_false_of_ne h] at hl
  rcases this with ⟨hn, hs⟩
  subst hn hs
  decide

/-- Helper for C4: count mode under uniformly retryable faults runs all
remaining attempts and reports exhaustion with the last error's string. -/
theorem countLoop_all_retryable (outcomes : Nat → Outcome)
    (code : Nat → StatusCode) (details strRepr : Nat → String) :
    ∀ remaining attempt lastError,
      (∀ i, i < remaining →
        outcomes (attempt + i)
          = .rpcError (code (attempt + i)) (details (attempt + i)) (strRepr (attempt + i))) →
      (∀ i, i < remaining → RETRYABLE_CODES (code (attempt + i)) = true) →
      countLoop outcomes attempt lastError remaining
        = (.errDict
            (match remaining with
              | 0 => strOfLast lastError
              | _ + 1 => strRepr (attempt + remaining - 1))
            true (some (attempt + remaining)), attempt + remaining) := by
  intro remaining
  induction remaining with
  | zero => intro attempt lastError _ _; simp [countLoop]
  | succ r ih =>
    intro attempt lastError hout hret
    have h0 := hout 0 (Nat.succ_pos r)
    have h0r := hret 0 (Nat.succ_pos r)
    simp only [Nat.add_zero] at h0 h0r
    rw [countLoop, h0]
    simp only [h0r, if_pos]
    have := ih (attempt + 1) (some (strRepr attempt))
      (fun i hi => by
        have := hout (i + 1) (Nat.succ_lt_succ hi)
        simpa [Nat.add_assoc, Nat.add_comm 1 i] using this)
      (fun i hi => by
        have := hret (i + 1) (Nat.succ_lt_succ hi)
        simpa [Nat.add_assoc, Nat.add_comm 1 i] using this)
    rw [this]
    cases r with
    | zero => simp [strOfLast]
    | succ r' =>
      have harith : attempt + 1 + (r' + 1) - 1 = attempt + (r' + 1 + 1) - 1 := by omega
      have harith2 : attempt + 1 + (r' + 1) = attempt + (r' + 1 + 1) := by omega
      simp [harith, harith2]

/-- C4: in count mode, when every invocation raises a retryable RPC fault,
the retry wrapper invokes the callable exactly `max_attempts` times and on
exhaustion returns {ok: false, error: str(last error), retryable: true,
attempts: max_attempts}. -/
theorem retry_count_mode_exhaustion (maxAttempts : Nat) (outcomes : Nat → Outcome)
    (code : Nat → StatusCode) (details strRepr : Nat → String)
    (hpos : 0 < maxAttempts)
    (hout : ∀ i, i < maxAttempts →
      outcomes i = .rpcError (code i) (details i) (strRepr i))
    (hret : ∀ i, i < maxAttempts → RETRYABLE_CODES (code i) = true) :
    withRetryCount maxAttempts outcomes
      = (.errDict (strRepr (maxAttempts - 1)) true (some maxAttempts), maxAttempts) := by
  have := countLoop_all_retryable outcomes code details strRepr maxAttempts 0 none
    (fun i hi => by simpa using hout i hi)
    (fun i hi => by simpa using hret i hi)
  rw [withRetryCount, this]
  cases maxAttempts with
  | zero => exact absurd hpos (by simp)
  | succ k => simp

/-- Witness for C4: three attempts, every invocation raising UNAVAILABLE,
yield three invocations and the exhaustion dict. -/
theorem retry_count_mode_exhaustion_witness :
    withRetryCount 3 (fun _ => .rpcError .unavailable "conn refused" "UNAVAILABLE boom")
      = (.errDict "UNAVAILABLE boom" true (some 3), 3) :=
  retry_count_mode_exhaustion 3
    (fun _ => .rpcError .unavailable "conn refused" "UNAVAILABLE boom")
    (fun _ => .unavailable) (fun _ => "conn refused") (fun _ => "UNAVAILABLE boom")
    (by decide) (fun _ _ => rfl) (fun _ _ => rfl)

/-- C5: an invocation raising an RPC error with a status outside
{UNAVAILABLE, DEADLINE_EXCEEDED, RESOURCE_EXHAUSTED} makes the wrapper
return immediately — one invocation only — with the non-retryable error
dict (ok=false, retryable=false); a non-RPC exception likewise.  Both
operating modes behave this way. -/
theorem retry_nonretryable_immediate :
    (∀ (maxAttempts : Nat) (outcomes : Nat → Outcome) code details strRepr,
      0 < maxAttempts →
      outcomes 0 = .rpcError code details strRepr →
      RETRYABLE_CODES code = false →
      withRetryCount maxAttempts outcomes
        = (.errDict (code.name ++ ": " ++ details) false none, 1)) ∧
    (∀ (maxAttempts : Nat) (outcomes : Nat → Outcome) strRepr,
      0 < maxAttempts →
      outcomes 0 = .otherError strRepr →
      withRetryCount maxAttempts outcomes = (.errDict strRepr false none, 1)) ∧
    (∀ (dl : Int) (ct st : Nat → Int) (outcomes : Nat → Outcome) code details strRepr
        (fuel : Nat),
      outcomes 0 = .rpcError code details strRepr →
      RETRYABLE_CODES code = false →
      withRetryDeadline dl ct st outcomes (fuel + 1)
        = some (.errDict (code.name ++ ": " ++ details) false none, 1)) ∧
    (∀ (dl : Int) (ct st : Nat → Int) (outcomes : Nat → Outcome) strRepr (fuel : Nat),
      outcomes 0 = .otherError strRepr →
      withRetryDeadline dl ct st outcomes (fuel + 1)
        = some (.errDict strRepr false none, 1)) := by
  refine ⟨?_, ?_, ?_, ?_⟩
  · intro maxAttempts outcomes code details strRepr hpos h0 hnr
    cases maxAttempts with
    | zero => exact absurd hpos (by simp)
    | succ k => rw [withRetryCount, countLoop, h0]; simp [hnr]
  · intro maxAttempts outcomes strRepr hpos h0
    cases maxAttempts with
    | zero => exact absurd hpos (by simp)
    | succ k => rw [withRetryCount, countLoop, h0]
  · intro dl ct st outcomes code details strRepr fuel h0 hnr
    rw [withRetryDeadline, deadlineLoop]
    simp [h0, hnr]
  · intro dl ct st outcomes strRepr fuel h0
    rw [withRetryDeadline, deadlineLoop]
    simp [h0]

/-- Witness for C5: an INVALID_ARGUMENT fault and a plain exception, in
count mode with three attempts and in deadline mode. -/
theorem retry_nonretryable_immediate_witness :
    withRetryCount 3 (fun _ => .rpcError .invalidArgument "bad arg" "boom")
      = (.errDict "INVALID_ARGUMENT: bad arg" false none, 1) ∧
    withRetryCount 3 (fun _ => .otherError "TypeError")
      = (.errDict "TypeError" false none, 1) ∧
    withRetryDeadline 100 (fun _ => 0) (fun _ => 0)
      (fun _ => .rpcError .notFound "no shelf" "boom") 5
      = some (.errDict "NOT_FOUND: no shelf" false none, 1) := by
  refine ⟨retry_nonretryable_immediate.1 3 _ .invalidArgument "bad arg" "boom"
      (by decide) rfl (by decide),
    retry_nonretryable_immediate.2.1 3 _ "TypeError" (by decide) rfl,
    retry_nonretryable_immediate.2.2.1 100 _ _ _ .notFound "no shelf" "boom" 4 rfl
      (by decide)⟩

/-- Helper for C10: the invocation counter never decreases across the
deadline-mode loop. -/
theorem deadlineLoop_attempts_ge (dl : Int) (ct st : Nat → Int)
    (outcomes : Nat → Outcome) :
    ∀ (fuel attempt : Nat) (lastError : Option String) (r : RetryResult) (n : Nat),
      deadlineLoop dl ct st outcomes attempt lastError fuel = some (r, n) →
      attempt ≤ n := by
  intro fuel
  induction fuel with
  | zero => intro attempt lastError r n h; simp [deadlineLoop] at h
  | succ f ih =>
    intro attempt lastError r n h
    rw [deadlineLoop] at h
    by_cases hbrk : attempt > 0 ∧ ct attempt ≥ dl
    · rw [if_pos hbrk] at h
      cases h
      exact Nat.le_refl _
    · rw [if_neg hbrk] at h
      cases hout : outcomes attempt with
      | success =>
        rw [hout] at h
        cases h
        exact Nat.le_succ _
      | rpcError code details strRepr =>
        rw [hout] at h
        by_cases hr : RETRYABLE_CODES code = true
        · by_cases hrem : dl - st attempt ≤ 0
          · simp [hr, hrem] at h
            obtain ⟨-, hn⟩ := h
            omega
          · have h' : deadlineLoop dl ct st outcomes (attempt + 1) (some strRepr) f
                = some (r, n) := by simpa [hr, hrem] using h
            exact Nat.le_of_succ_le (ih (attempt + 1) (some strRepr) r n h')
        · simp [hr] at h
          obtain ⟨-, hn⟩ := h
          omega
      | otherError strRepr =>
        rw [hout] at h
        cases h
        exact Nat.le_succ _

/-- C10: in deadline mode the loop-head deadline check is skipped before
the first attempt, so whenever the wrapper terminates it has invoked the
callable at least once; in particular, with the deadline already elapsed at
entry and a first invocation raising a retryable fault, exactly one attempt
is made and exhaustion is reported with attempts = 1. -/
theorem retry_deadline_mode_first_attempt :
    (∀ (dl : Int) (ct st : Nat → Int) (outcomes : Nat → Outcome) (fuel : Nat)
        (r : RetryResult) (n : Nat),
      withRetryDeadline dl ct st outcomes fuel = some (r, n) → 1 ≤ n) ∧
    (∀ (dl : Int) (ct st : Nat → Int) (outcomes : Nat → Outcome) (fuel : Nat)
        code details strRepr,
      outcomes 0 = .rpcError code details strRepr →
      RETRYABLE_CODES code = true →
      dl - st 0 ≤ 0 →
      withRetryDeadline dl ct st outcomes (fuel + 1)
        = some (.errDict strRepr true (some 1), 1)) := by
  constructor
  · intro dl ct st outcomes fuel r n h
    cases fuel with
    | zero => simp [withRetryDeadline, deadlineLoop] at h
    | succ f =>
      rw [withRetryDeadline, deadlineLoop] at h
      simp only [Nat.lt_irrefl, false_and, if_false] at h
      cases hout : outcomes 0 with
      | success =>
        rw [hout] at h
        cases h
        exact Nat.le_refl 1
      | rpcError code details strRepr =>
        rw [hout] at h
        by_cases hr : RETRYABLE_CODES code = true
        · by_cases hrem : dl - st 0 ≤ 0
          · simp [hr, hrem] at h
            obtain ⟨-, hn⟩ := h
            omega
          · have h' : deadlineLoop dl ct st outcomes 1 (some strRepr) f
                = some (r, n) := by simpa [hr, hrem] using h
            exact deadlineLoop_attempts_ge dl ct st outcomes f 1 (some strRepr) r n h'
        · simp [hr] at h
          obtain ⟨-, hn⟩ := h
          omega
      | otherError strRepr =>
        rw [hout] at h
        cases h
        exact Nat.le_refl 1
  · intro dl ct st outcomes fuel code details strRepr h0 hr hrem
    rw [withRetryDeadline, deadlineLoop]
    simp [h0, hr, hrem, strOfLast]

/-- Witness for C10: a deadline of −1 (already elapsed at entry) with a
callable that always raises UNAVAILABLE still yields exactly one attempt. -/
theorem retry_deadline_mode_first_attempt_witness :
    withRetryDeadline (-1) (fun _ => 0) (fun _ => 0)
      (fun _ => .rpcError .unavailable "down" "UNAVAILABLE down") 4
      = some (.errDict "UNAVAILABLE down" true (some 1), 1) ∧
    (1 : Nat) ≤ 1 := by
  have h := retry_deadline_mode_first_attempt.2 (-1) (fun _ => 0) (fun _ => 0)
    (fun _ => .rpcError .unavailable "down" "UNAVAILABLE down") 3
    .unavailable "down" "UNAVAILABLE down" rfl (by decide) (by decide)
  exact ⟨h, retry_deadline_mode_first_attempt.1 (-1) _ _ _ 4 _ 1 h⟩

/-- Helper for C2: the polling loop reports ok=true only if the trace
contains a poll whose last-result fetch carried OUR command id with
success. -/
theorem pollLoop_ok_mem (cmdId action target : String) (descOf : Int → String)
    (tv : Nat) :
    ∀ (steps : List PollStep) (tick : Nat) (sm : ShelfMonitor) (m : Metrics),
      (pollLoop cmdId action target descOf tv steps tick sm m).1.ok = true →
      ∃ st cid read ec rtt,
        PollStep.poll st cid read (.resp cmdId true ec) rtt ∈ steps := by
  intro steps
  induction steps with
  | nil => intro tick sm m h; simp [pollLoop] at h
  | cons step rest ih =>
    intro tick sm m h
    cases step with
    | pollFail =>
      simp only [pollLoop] at h
      obtain ⟨st, cid, read, ec, rtt, hmem⟩ := ih _ _ _ h
      exact ⟨st, cid, read, ec, rtt, List.mem_cons_of_mem _ hmem⟩
    | poll st cid read fetch rtt =>
      simp only [pollLoop] at h
      by_cases hcond :
          (st ≠ COMMAND_STATE_RUNNING ∧ st ≠ COMMAND_STATE_PENDING) ∨ cid ≠ cmdId
      · rw [if_pos hcond] at h
        cases fetch with
        | raiseErr msg => simp at h
        | resp rcid success ec =>
          by_cases hrc : rcid = cmdId
          · subst hrc
            cases success with
            | true => exact ⟨st, cid, read, ec, rtt, List.mem_cons_self _ _⟩
            | false => simp at h
          · have h' : (pollLoop cmdId action target descOf tv rest (tick + 1)
                (shelfMonitorStep sm read) (m.onPollOk rtt)).1.ok = true := by
              simpa [hrc] using h
            obtain ⟨st', cid', read', ec', rtt', hmem⟩ := ih _ _ _ h'
            exact ⟨st', cid', read', ec', rtt', List.mem_cons_of_mem _ hmem⟩
      · rw [if_neg hcond] at h
        obtain ⟨st', cid', read', ec', rtt', hmem⟩ := ih _ _ _ h
        exact ⟨st', cid', read', ec', rtt', List.mem_cons_of_mem _ hmem⟩

/-- C2: the executor never returns ok=true unless the started command id was
confirmed: an ok=true result implies the start RPC succeeded with some
command id and the trace contains a last-result fetch carrying exactly that
id with success; and a fetched last result carrying a DIFFERENT command id
is never returned — the loop continues polling on the remaining trace. -/
theorem command_id_verification :
    (∀ (action target : String) (descOf : Int → String) (tv : Nat)
        (start : StartOutcome) (regSteps : List (Option (Nat × String)))
        (steps : List PollStep) (sm : ShelfMonitor) (m : Metrics),
      (executeCommand action target descOf tv start regSteps steps sm m).1.ok = true →
      ∃ ec0 cmdId, start = .resp true ec0 cmdId ∧
        ∃ st cid read ec rtt,
          PollStep.poll st cid read (.resp cmdId true ec) rtt ∈ steps) ∧
    (∀ (cmdId action target : String) (descOf : Int → String) (tv st : Nat)
        (cid : String) (read : Option String) (rcid : String) (success : Bool)
        (ec : Int) (rtt : Nat) (rest : List PollStep) (tick : Nat)
        (sm : ShelfMonitor) (m : Metrics),
      ((st ≠ COMMAND_STATE_RUNNING ∧ st ≠ COMMAND_STATE_PENDING) ∨ cid ≠ cmdId) →
      rcid ≠ cmdId →
      pollLoop cmdId action target descOf tv
          (.poll st cid read (.resp rcid success ec) rtt :: rest) tick sm m
        = pollLoop cmdId action target descOf tv rest (tick + 1)
            (shelfMonitorStep sm read) (m.onPollOk rtt)) := by
  constructor
  · intro action target descOf tv start regSteps steps sm m h
    cases start with
    | raiseErr msg => simp [executeCommand] at h
    | resp success ec cmdId =>
      cases success with
      | false => simp [executeCommand] at h
      | true =>
        simp only [executeCommand, if_true] at h
        exact ⟨ec, cmdId, rfl, pollLoop_ok_mem cmdId action target descOf tv steps 0 sm m h⟩
  · intro cmdId action target descOf tv st cid read rcid success ec rtt rest tick sm m
      hcond hrc
    simp only [pollLoop]
    rw [if_pos hcond, if_neg hrc]

/-- Witness for C2: a concrete run in which the first fetched last result is
stale (id "cmd-old") and the second carries our id "cmd-A" with success. -/
theorem command_id_verification_witness :
    (∃ ec0 cmdId, StartOutcome.resp true 0 "cmd-A" = .resp true ec0 cmdId ∧
      ∃ st cid read ec rtt,
        PollStep.poll st cid read (.resp cmdId true ec) rtt ∈
          [PollStep.poll 0 "cmd-A" none (.resp "cmd-old" true 0) 4,
           PollStep.poll 0 "cmd-A" none (.resp "cmd-A" true 0) 5]) ∧
    pollLoop "cmd-A" "return_home" "" (fun _ => "") 60
        [PollStep.poll 0 "cmd-A" none (.resp "cmd-old" true 0) 4,
         PollStep.poll 0 "cmd-A" none (.resp "cmd-A" true 0) 5] 0 {} {}
      = pollLoop "cmd-A" "return_home" "" (fun _ => "") 60
          [PollStep.poll 0 "cmd-A" none (.resp "cmd-A" true 0) 5] 1
          (shelfMonitorStep {} none) (Metrics.onPollOk {} 4) := by
  constructor
  · exact command_id_verification.1 "return_home" "" (fun _ => "") 60
      (.resp true 0 "cmd-A") []
      [PollStep.poll 0 "cmd-A" none (.resp "cmd-old" true 0) 4,
       PollStep.poll 0 "cmd-A" none (.resp "cmd-A" true 0) 5] {} {} (by decide)
  · exact command_id_verification.2 "cmd-A" "return_home" "" (fun _ => "") 60 0
      "cmd-A" none "cmd-old" true 0 4
      [PollStep.poll 0 "cmd-A" none (.resp "cmd-A" true 0) 5] 0 {} {}
      (by decide) (by decide)

/-- C8: `move_shelf` arms the shelf monitor and seeds moving_shelf_id with
the resolved target shelf id before invoking the executor; inside the
polling loop, an armed monitor whose previous id was non-empty reading an
empty moving-shelf id sets shelf_dropped, fires the on-shelf-dropped
listener with the previous id (appended to `droppedEvents`) and disarms
monitoring — so even a first-poll transition to empty is detected. -/
theorem move_shelf_drop_detection :
    (∀ (rs : ResolverState) (shelfName : String) (sm : ShelfMonitor),
      (moveShelfPrep rs shelfName sm).2.monitoringShelf = true ∧
      (moveShelfPrep rs shelfName sm).2.movingShelfId
        = some (resolveShelf rs shelfName) ∧
      (moveShelfPrep rs shelfName sm).2.shelfDropped = false) ∧
    (∀ rs shelfName locationName descOf tv start regSteps steps sm m,
      moveShelf rs shelfName locationName descOf tv start regSteps steps sm m
        = executeCommand "move_shelf" (shelfName ++ " -> " ++ locationName) descOf tv
            start regSteps steps (moveShelfPrep rs shelfName sm).2 m) ∧
    (∀ (sm : ShelfMonitor) (p : String),
      sm.monitoringShelf = true → sm.movingShelfId = some p → p ≠ "" →
      shelfMonitorStep sm (some "")
        = { sm with
            movingShelfId := none
            shelfDropped := true
            droppedEvents := sm.droppedEvents ++ [p]
            monitoringShelf := false }) ∧
    (∀ (rs : ResolverState) (shelfName : String) (sm : ShelfMonitor),
      resolveShelf rs shelfName ≠ "" →
      shelfMonitorStep (moveShelfPrep rs shelfName sm).2 (some "")
        = { monitoringShelf := false
            movingShelfId := none
            shelfDropped := true
            droppedEvents := sm.droppedEvents ++ [resolveShelf rs shelfName] }) := by
  refine ⟨fun rs shelfName sm => ⟨rfl, rfl, rfl⟩, fun _ _ _ _ _ _ _ _ _ _ => rfl,
    ?_, ?_⟩
  · intro sm p hmon hmov hp
    simp [shelfMonitorStep, hmon, hmov, hp]
  · intro rs shelfName sm hne
    simp [shelfMonitorStep, moveShelfPrep, hne]

/-- Witness for C8: shelf "pantry" resolving to id "S01"; the seeded
monitor reading an empty moving-shelf id on the very first poll records the
drop of "S01" and disarms. -/
theorem move_shelf_drop_detection_witness :
    shelfMonitorStep
        (moveShelfPrep
          { shelves := [("pantry", "S01")], shelfIds := ["S01"], locations := [],
            locationIds := [] } "pantry" {}).2 (some "")
      = { monitoringShelf := false
          movingShelfId := none
          shelfDropped := true
          droppedEvents := [] ++ ["S01"] } ∧
    shelfMonitorStep
        { monitoringShelf := true
          movingShelfId := some "S01"
          shelfDropped := false
          droppedEvents := [] } (some "")
      = { monitoringShelf := false
          movingShelfId := none
          shelfDropped := true
          droppedEvents := [] ++ ["S01"] } := by
  constructor
  · have h := move_shelf_drop_detection.2.2.2
      { shelves := [("pantry", "S01")], shelfIds := ["S01"], locations := [],
        locationIds := [] } "pantry" {} (by decide)
    have hres : resolveShelf
        { shelves := [("pantry", "S01")], shelfIds := ["S01"], locations := [],
          locationIds := [] } "pantry" = "S01" := by decide
    rw [h, hres]
  · have h := move_shelf_drop_detection.2.2.1
      { monitoringShelf := true, movingShelfId := some "S01", shelfDropped := false,
        droppedEvents := [] } "S01" rfl rfl (by decide)
    rw [h]

end KachakaCore
